import Mathlib

/-!
Verification development for the `jasmin_ldap_django` translation layer.

The definitions below are a shallow embedding of the Python source:

* `compileExpr` embeds `SQLCompiler._compile` (backend/compiler.py, lines 24-46),
* `processSelect`, `buildPlan`, `materialize` and `executeSql` embed
  `SQLCompiler.execute_sql` (backend/compiler.py, lines 48-159),
* the bulk compiler functions embed `SQLInsertCompiler.execute_sql`,
  `SQLUpdateCompiler.execute_sql` and `SQLDeleteCompiler.execute_sql`
  (backend/compiler.py, lines 165-177),
* `check_entry_password` embeds `DatabaseWrapper.check_entry_password`
  (backend/base.py, lines 146-153),
* `ldapModelInit`, `buildDn`, `save`, `set_password` and `check_password`
  embed the corresponding methods of `LDAPModel` (models.py, lines 101-181).

External collaborators (the `jasmin_ldap` client library and the Django ORM
machinery that produces the query tree) appear only at their interface
boundary: directory results are an oracle parameter (`runQuery`), the
aggregate-result dictionary is an oracle parameter (`aggEval`), and the bind
outcome of a connection attempt is an oracle parameter (`bind`).
-/

/-- The abstract filter vocabulary produced for the directory layer, embedding
`jasmin_ldap.filters` (`Expression`, `AndNode`, `OrNode`, `NotNode`), which the
compiler builds but never interprets. -/
inductive LDAPFilter where
  | expr (attr : String) (lookupName : String) (value : String)
  | andNode (children : List LDAPFilter)
  | orNode (children : List LDAPFilter)
  | notNode (child : LDAPFilter)

/-- The left-hand side of a Django lookup: either a direct column reference
(`expressions.Col`) or anything else (for example a reference to an annotated
or computed field), which `_compile` rejects. -/
inductive LookupLhs where
  | col (column : String)
  | notCol (descr : String)
  deriving DecidableEq, Repr

mutual
/-- A Django where-clause expression as consumed by `SQLCompiler._compile`:
either a `lookups.Lookup` (lhs, lookup name, rhs value) or a
`where.WhereNode` (connector string, ordered children, negated flag). -/
inductive SQLExpr where
  | lookup (lhs : LookupLhs) (lookupName : String) (rhs : String) : SQLExpr
  | whereNode (connector : String) (children : SQLExprList) (negated : Bool) : SQLExpr

/-- Ordered list of where-clause children (a mutual inductive so that the
compiler can recurse structurally). -/
inductive SQLExprList where
  | nil : SQLExprList
  | cons (head : SQLExpr) (tail : SQLExprList) : SQLExprList
end

/-- Number of children of a where node. -/
def SQLExprList.length : SQLExprList → Nat
  | .nil => 0
  | .cons _ t => t.length + 1

mutual
/-- Embedding of `SQLCompiler._compile` (compiler.py, lines 24-46).
A lookup on a column becomes an atomic `Expression`; a lookup on anything
else raises `TypeError`.  A where node with exactly one child recurses into
that child; otherwise the connector selects `AndNode` or `OrNode` over the
compiled children (child order preserved), and an unknown connector raises
`TypeError`.  In every non-error case the `negated` flag wraps the result in
a `NotNode` afterwards. -/
def compileExpr : SQLExpr → Except String LDAPFilter
  | .lookup lhs lookupName rhs =>
    match lhs with
    | .col column => .ok (.expr column lookupName rhs)
    | .notCol _ => .error "Filtering on annotations is not supported"
  | .whereNode connector children negated =>
    Except.map (fun node => if negated then LDAPFilter.notNode node else node)
      (match children with
       | .cons c .nil => compileExpr c
       | cs =>
         if connector = "AND" then Except.map LDAPFilter.andNode (compileList cs)
         else if connector = "OR" then Except.map LDAPFilter.orNode (compileList cs)
         else .error ("Unsupported connector: " ++ connector))

/-- Compile every child in order, stopping at the first error (embeds the
list comprehension `[self._compile(c) for c in expr.children]`). -/
def compileList : SQLExprList → Except String (List LDAPFilter)
  | .nil => .ok []
  | .cons c cs =>
    match compileExpr c with
    | .error e => .error e
    | .ok f =>
      match compileList cs with
      | .error e => .error e
      | .ok fs => .ok (f :: fs)
end

/-- A negation wrapper as Django represents it: a where node (default
connector `AND`) with one child and the negated flag set. -/
def notWrap (e : SQLExpr) : SQLExpr := .whereNode "AND" (.cons e .nil) true

/-- A source expression inside a Django aggregate: `expressions.Star`
(whole-query count), a column reference (`expressions.Col`, carrying the field
name used for the generated alias and the column), a reference to an earlier
alias (`expressions.Ref`, carrying the referenced target name and the alias
string `refs`), or anything else. -/
inductive AggSource where
  | star
  | col (name : String) (column : String)
  | ref (name : String) (refs : String)
  | otherSource (descr : String)
  deriving DecidableEq, Repr

/-- One entry of `self.select + extra_select`: a direct column reference, an
aggregate expression (class name, source expressions, `is_summary` flag), or
an expression of any other shape (always rejected). -/
inductive SelectExpr where
  | col (column : String)
  | aggregate (exprName : String) (sources : List AggSource) (isSummary : Bool)
  | otherExpr (descr : String)
  deriving DecidableEq, Repr

/-- A resolved per-entry annotation operation (an object from
`jasmin_ldap.annotations`, identified here by its class name and target
attribute). -/
structure AnnotOp where
  opName : String
  target : String
  deriving DecidableEq, Repr

/-- A resolved aggregation operation (an object from
`jasmin_ldap.aggregations`); `target` is `none` for the whole-query count. -/
structure AggrOp where
  opName : String
  target : Option String
  deriving DecidableEq, Repr

/-- The information gathered by the projection loop of `execute_sql`
(compiler.py, lines 55-100): the ordered annotation mapping `q_annots`, the
ordered aggregate mapping `q_aggregates` (keys are aliases, which Django may
leave as `None` in the whole-query count branch) and the ordered list of
field names to extract. -/
structure ProjResult where
  annots : List (String × AnnotOp)
  aggrs : List (Option String × AggrOp)
  fields : List String
  deriving DecidableEq, Repr

/-- Python `alias or fallback`: `None` and the empty string are falsy. -/
def pyOr (aliasOpt : Option String) (fallback : String) : String :=
  match aliasOpt with
  | some a => if a = "" then fallback else a
  | none => fallback

/-- Embedding of one iteration of the projection loop of `execute_sql`
(compiler.py, lines 58-100).  `annotNames` and `aggrNames` model the class
names defined by the external `jasmin_ldap.annotations` and
`jasmin_ldap.aggregations` modules (`getattr` succeeding is membership in the
registry).  Every shape the loop cannot translate becomes an error, which in
the source is a `NotImplementedError` raised before any connection is
created. -/
def processItem (annotNames aggrNames : List String) (acc : ProjResult)
    (item : SelectExpr × Option String) : Except String ProjResult :=
  match item with
  | (.col column, _) => .ok { acc with fields := acc.fields ++ [column] }
  | (.aggregate exprName sources isSummary, aliasOpt) =>
    match sources with
    | [se] =>
      if exprName = "Count" ∧ se = .star then
        .ok { acc with aggrs := acc.aggrs ++ [(aliasOpt, ⟨"Count", none⟩)] }
      else
        match se with
        | .col n c =>
          processResolved annotNames aggrNames acc exprName isSummary
            (pyOr aliasOpt (n ++ "__" ++ exprName.toLower)) c
        | .ref n r =>
          processResolved annotNames aggrNames acc exprName isSummary
            (pyOr aliasOpt (n ++ "__" ++ exprName.toLower)) r
        | _ => .error ("Unsupported usage: " ++ exprName)
    | _ => .error ("Unsupported usage: " ++ exprName)
  | (.otherExpr d, _) => .error ("Unsupported usage: " ++ d)
where
  /-- The `is_summary` dispatch (compiler.py, lines 85-99): a summary
  expression resolves against the aggregation registry, anything else against
  the annotation registry (which also appends the generated name to the field
  list); an unknown name falls through to the raise at line 100. -/
  processResolved (annotNames aggrNames : List String) (acc : ProjResult)
      (exprName : String) (isSummary : Bool) (name target : String) :
      Except String ProjResult :=
    if isSummary then
      if aggrNames.contains exprName then
        .ok { acc with aggrs := acc.aggrs ++ [(some name, ⟨exprName, some target⟩)] }
      else .error ("Unsupported usage: " ++ exprName)
    else
      if annotNames.contains exprName then
        .ok { acc with
              annots := acc.annots ++ [(name, ⟨exprName, target⟩)],
              fields := acc.fields ++ [name] }
      else .error ("Unsupported usage: " ++ exprName)

/-- Fold of `processItem` over the select list, in order. -/
def processSelectAux (annotNames aggrNames : List String) (acc : ProjResult) :
    List (SelectExpr × Option String) → Except String ProjResult
  | [] => .ok acc
  | item :: rest =>
    match processItem annotNames aggrNames acc item with
    | .error e => .error e
    | .ok acc2 => processSelectAux annotNames aggrNames acc2 rest

/-- Embedding of the whole projection loop (compiler.py, lines 55-100),
starting from empty `q_annots`, `q_aggregates` and `fields`. -/
def processSelect (annotNames aggrNames : List String)
    (select : List (SelectExpr × Option String)) : Except String ProjResult :=
  processSelectAux annotNames aggrNames ⟨[], [], []⟩ select

/-- The expression of one ordering key (`o.expression` in compiler.py, lines
127-138): a column, a reference to an alias, or anything else (rejected). -/
inductive OrderTarget where
  | col (column : String)
  | ref (refs : String)
  | otherTarget (descr : String)
  deriving DecidableEq, Repr

/-- One ordering key produced by `pre_sql_setup`. -/
structure OrderKey where
  target : OrderTarget
  descending : Bool
  deriving DecidableEq, Repr

/-- Embedding of the body of the ordering loop (compiler.py, lines 129-138):
resolve the attribute name and mark descending order with a leadingminus
sign. -/
def compileOrdering (o : OrderKey) : Except String String :=
  match o.target with
  | .col column => .ok (if o.descending then "-" ++ column else column)
  | .ref refs => .ok (if o.descending then "-" ++ refs else refs)
  | .otherTarget d => .error ("Unsupported expression: " ++ d)

/-- The ordering loop over all keys, in order, stopping at the first
unsupported expression. -/
def compileOrderings : List OrderKey → Except String (List String)
  | [] => .ok []
  | o :: os =>
    match compileOrdering o with
    | .error e => .error e
    | .ok a =>
      match compileOrderings os with
      | .error e => .error e
      | .ok rest => .ok (a :: rest)

/-- The data `execute_sql` reads from `self.query`, `self.select` and the
model class: the select list (with aliases), the where tree, the model
configuration (`base_dn`, `object_classes`, `search_classes`), the distinct
flag, the ordering keys from `pre_sql_setup`, and the slice marks
(`low_mark`, `high_mark`). -/
structure DjangoQuery where
  select : List (SelectExpr × Option String)
  whereTree : Option SQLExpr
  baseDn : String
  objectClasses : List String
  searchClasses : Option (List String)
  distinct : Bool
  orderBy : List OrderKey
  lowMark : Nat
  highMark : Option Nat

/-- The scoped `jasmin_ldap.Query` value as accumulated by `execute_sql`
inside the `with create_query(...)` block: annotations, filter predicates (in
application order: one objectClass equality per search class, then the
compiled where filter), selected fields, distinct flag, orderings and slice
bounds.  The external library interprets this plan; the embedding passes it
to the oracle `runQuery`. -/
structure QueryPlan where
  baseDn : String
  annots : List (String × AnnotOp)
  filters : List LDAPFilter
  selectFields : List String
  distinct : Bool
  orderings : List String
  slice : Option (Nat × Option Nat)

/-- Embedding of the query-building part of `execute_sql` that runs inside
the connection scope (compiler.py, lines 103-143): object-class filters for
`search_classes` (falling back to `object_classes`), the compiled where
filter, field selection, distinct, orderings, and the slice (applied only
when `low_mark` or `high_mark` is truthy). -/
def buildPlan (q : DjangoQuery) (pr : ProjResult) : Except String QueryPlan := do
  let ocFilters := (q.searchClasses.getD q.objectClasses).map
    (fun oc => LDAPFilter.expr "objectClass" "exact" oc)
  let filters ← match q.whereTree with
    | some w =>
      match compileExpr w with
      | .error e => .error e
      | .ok f => .ok (ocFilters ++ [f])
    | none => .ok ocFilters
  let orderings ← compileOrderings q.orderBy
  let slice := if q.lowMark ≠ 0 ∨ q.highMark.getD 0 ≠ 0
               then some (q.lowMark, q.highMark) else none
  .ok { baseDn := q.baseDn, annots := pr.annots, filters := filters,
        selectFields := pr.fields, distinct := q.distinct,
        orderings := orderings, slice := slice }

/-- The `result_type` argument of `execute_sql` (the Django compiler module
constants `SINGLE`, `MULTI`, `CURSOR`, `NO_RESULTS`). -/
inductive ResultType where
  | single
  | multi
  | cursor
  | noResults
  deriving DecidableEq, Repr

/-- A directory entry as yielded by iterating a `jasmin_ldap.Query`: named,
inherently multi-valued attributes; `entryGet` below embeds
`entry.get(name, default)`. -/
abbrev Entry := List (String × List String)

/-- `entry.get(attr, dflt)`: the value sequence of the attribute, or the
default when the attribute is absent on the entry. -/
def entryGet (e : Entry) (attr : String) (dflt : List String) : List String :=
  match e.find? (fun kv => kv.fst == attr) with
  | some kv => kv.snd
  | none => dflt

/-- The shapes `execute_sql` can return when it returns rows (compiler.py,
lines 145-159): a scalar aggregate row, a single projected row, or a list of
chunks of projected rows (the source always produces exactly one chunk). -/
inductive ExecResult where
  | aggrRow (vals : List (Option Nat))
  | singleRow (vals : List (List String))
  | multiRows (chunks : List (List (List (List String))))
  deriving DecidableEq, Repr

/-- Connection lifecycle events.  `create_query` (base.py, lines 122-136) is
a context manager that creates the underlying LDAP connection on entry and
closes it on every exit path, including exceptions. -/
inductive Ev where
  | connOpened
  | connClosed
  deriving DecidableEq, Repr

/-- Embedding of the result branch of `execute_sql` (compiler.py, lines
145-159).  In `SINGLE` mode a nonempty aggregate mapping takes priority and
produces the scalar row `[result.get(n) for n in q_aggregates.keys()]`
(`aggEval` models the dictionary returned by the external
`query.aggregate`); otherwise `query.one()` — first matching entry or `None`
per the interface of the external library — yields either `None` or the
projected row.  In `MULTI` mode the whole entry list becomes a single chunk
of projected rows.  The wildcard arm is unreachable under the guard at line
49. -/
def materialize (rt : ResultType) (pr : ProjResult) (entries : List Entry)
    (aggEval : Option String → Option Nat) : Option ExecResult :=
  match rt with
  | .single =>
    if pr.aggrs.isEmpty then
      match entries.head? with
      | some e => some (.singleRow (pr.fields.map fun f => entryGet e f []))
      | none => none
    else some (.aggrRow (pr.aggrs.map fun a => aggEval a.fst))
  | .multi =>
    some (.multiRows [entries.map fun r => pr.fields.map fun f => entryGet r f []])
  | _ => none

/-- Embedding of `SQLCompiler.execute_sql` (compiler.py, lines 48-159).
An unsupported `result_type` returns `None` immediately.  The projection
loop (`processSelect`) runs before any connection exists; only then does
`with create_query(...)` open the scoped connection (event `connOpened`).
Filter and ordering translation (`buildPlan`) runs inside that scope, so
their errors propagate after the connection was opened, and the context
manager closes it (event `connClosed`) on both the error and the success
path.  `runQuery` is the external directory evaluation of the accumulated
plan and `aggEval` the external aggregation result. -/
def executeSql (annotNames aggrNames : List String) (q : DjangoQuery)
    (resultType : ResultType) (runQuery : QueryPlan → List Entry)
    (aggEval : Option String → Option Nat) :
    List Ev × Except String (Option ExecResult) :=
  if resultType = ResultType.single ∨ resultType = ResultType.multi then
    match processSelect annotNames aggrNames q.select with
    | .error e => ([], .error e)
    | .ok pr =>
      match buildPlan q pr with
      | .error e => ([Ev.connOpened, Ev.connClosed], .error e)
      | .ok plan =>
        ([Ev.connOpened, Ev.connClosed],
         .ok (materialize resultType pr (runQuery plan) aggEval))
  else ([], .ok none)

/-- Embedding of `SQLInsertCompiler.execute_sql` (compiler.py, lines
165-167): for every query and result type it raises `NotImplementedError`
without touching the directory, so the event trace is empty. -/
def sqlInsertCompilerExecuteSql (_q : DjangoQuery) (_resultType : ResultType) :
    List Ev × Except String (Option ExecResult) :=
  ([], .error "Bulk insert is not supported for LDAP")

/-- Embedding of `SQLUpdateCompiler.execute_sql` (compiler.py, lines
170-172). -/
def sqlUpdateCompilerExecuteSql (_q : DjangoQuery) (_resultType : ResultType) :
    List Ev × Except String (Option ExecResult) :=
  ([], .error "Bulk update is not supported for LDAP")

/-- Embedding of `SQLDeleteCompiler.execute_sql` (compiler.py, lines
175-177). -/
def sqlDeleteCompilerExecuteSql (_q : DjangoQuery) (_resultType : ResultType) :
    List Ev × Except String (Option ExecResult) :=
  ([], .error "Bulk delete is not supported for LDAP")

/-- Outcome of one authenticated bind attempt
(`Connection.create(servers, dn, password)` in the external client library):
success, an `AuthenticationError`, or any other connection failure. -/
inductive BindOutcome where
  | success
  | authError
  | otherError (msg : String)
  deriving DecidableEq, Repr

/-- Embedding of `DatabaseWrapper.check_entry_password` (base.py, lines
146-153): create a connection bound as `dn` with `password` and close it
straight away; success yields `True`, an `AuthenticationError` is caught and
yields `False`, and any other failure propagates (the `error` case). -/
def check_entry_password (bind : Option String → String → BindOutcome)
    (dn : Option String) (password : String) : Except String Bool :=
  match bind dn password with
  | .success => .ok true
  | .authError => .ok false
  | .otherError m => .error m

/-- One entry of `self._meta.fields`: the field name, its mapped column
(`None` when the field is not concrete) and whether it is the primary key. -/
structure FieldDef where
  name : String
  column : Option String
  primaryKey : Bool
  deriving DecidableEq, Repr

/-- The class-level configuration of an `LDAPModel` subclass: `base_dn`
(`None`, modelled as the empty string, when not set — both are falsy in the
source check), `object_classes`, `search_classes` and the declared fields. -/
structure ModelClass where
  baseDn : String
  objectClasses : List String
  searchClasses : Option (List String)
  fields : List FieldDef
  deriving DecidableEq, Repr

/-- Defining an `LDAPModel` subclass in the source is a plain Python class
definition: no configuration validation runs at that point (the checks live
in `LDAPModel.__init__`, which runs per instance).  Correspondingly this
function has no error channel at all: it returns the class unchanged. -/
def defineModelClass (c : ModelClass) : ModelClass := c

/-- Embedding of the `_cn_field` loop of `LDAPModel.__init__` (models.py,
lines 107-110): scan all fields, remembering the name of each field whose
column is truthy, lowercases to `cn` and is the primary key (the last match
wins, as repeated assignment in the source loop). -/
def findCnField (fields : List FieldDef) : Option String :=
  fields.foldl
    (fun acc f =>
      match f.column with
      | some c => if c ≠ "" ∧ c.toLower = "cn" ∧ f.primaryKey then some f.name else acc
      | none => acc)
    none

/-- Embedding of the configuration checks of `LDAPModel.__init__` (models.py,
lines 101-114), which run at every instance construction: a falsy `base_dn`
raises `ImproperlyConfigured`, then a missing primary-key field mapping to
`cn` raises `ImproperlyConfigured`; otherwise the resolved `_cn_field` name
is returned. -/
def ldapModelInit (c : ModelClass) : Except String String :=
  if c.baseDn = "" then .error "LDAP models must have a base_dn"
  else
    match findCnField c.fields with
    | some n => .ok n
    | none => .error "LDAP models must have a primary key field mapping to the CN"

/-- An `LDAPModel` instance as `save`, `delete`, `check_password` and
`set_password` see it.  `cnValue` is the current value of the `_cn_field`
(the empty string standing for a falsy value); `fieldValues` is the
column-to-prepared-value mapping the save loop builds from the concrete
fields via `get_db_prep_save` (the per-field type coercion glue is outside
this layer); `adding` is `self._state.adding`; `rawPassword` is the staged
`_raw_password` attribute (`none` when never set).  `loadedCn` is a ghost
field recording the naming-attribute value the instance had when it was
loaded — the source keeps no such record, and it is used only to state
specification claims about renaming. -/
structure LDAPInstance where
  cls : ModelClass
  cnValue : String
  loadedCn : String
  fieldValues : List (String × List String)
  adding : Bool
  rawPassword : Option String

/-- Embedding of `LDAPModel._build_dn` (models.py, lines 116-118):
`cn=<value>,<base_dn>` when the naming value is truthy, otherwise `None`. -/
def buildDn (inst : LDAPInstance) : Option String :=
  if inst.cnValue = "" then none
  else some ("cn=" ++ inst.cnValue ++ "," ++ inst.cls.baseDn)

/-- Python dictionary assignment `d[k] = v` on an insertion-ordered mapping:
replace in place when the key exists, append otherwise. -/
def dictSet (d : List (String × List String)) (k : String) (v : List String) :
    List (String × List String) :=
  if d.any (fun kv => kv.fst == k) then
    d.map (fun kv => if kv.fst == k then (k, v) else kv)
  else d ++ [(k, v)]

/-- The attribute dictionary `save` sends to the directory (models.py, lines
132-139): the prepared concrete-field values with `objectClass` force-set to
the class object classes. -/
def saveAttrs (inst : LDAPInstance) : List (String × List String) :=
  dictSet inst.fieldValues "objectClass" inst.cls.objectClasses

/-- The write operations of the directory connection interface.
`renameEntry` belongs to the connection vocabulary of the specification; the
backend wrapper in the source (base.py) defines create, update, password-set
and delete operations but no rename, and `save` never issues one. -/
inductive DirOp where
  | createEntry (dn : Option String) (attrs : List (String × List String))
  | updateEntry (dn : Option String) (attrs : List (String × List String))
  | renameEntry (oldDn newDn : Option String)
  | setEntryPassword (dn : Option String) (pw : String)
  | deleteEntry (dn : Option String)
  deriving DecidableEq, Repr

/-- Whether an operation is a rename. -/
def DirOp.isRename : DirOp → Bool
  | .renameEntry _ _ => true
  | _ => false

/-- Whether an operation is a password set. -/
def DirOp.isSetPassword : DirOp → Bool
  | .setEntryPassword _ _ => true
  | _ => false

/-- Embedding of `LDAPModel.save` (models.py, lines 120-156), returning the
ordered directory operations it issues and the updated instance state.
Validation (`full_clean`) and signal dispatch are caller-side machinery
outside this layer.  The DN and the attribute dictionary are built from the
current state; an instance in the adding state gets `create_entry`, any
other instance gets `update_entry` at the newly computed DN (there is no
comparison with a previously stored DN and no rename); a truthy staged raw
password adds a `set_entry_password` call after the main write; finally the
adding flag is cleared.  The staged password itself is never cleared. -/
def save (inst : LDAPInstance) : List DirOp × LDAPInstance :=
  let dn := buildDn inst
  let attrs := saveAttrs inst
  let mainOp := if inst.adding then DirOp.createEntry dn attrs
                else DirOp.updateEntry dn attrs
  let pwOps := match inst.rawPassword with
    | some p => if p = "" then [] else [DirOp.setEntryPassword dn p]
    | none => []
  (mainOp :: pwOps, { inst with adding := false })

/-- Embedding of `LDAPModel.delete` (models.py, lines 158-164): a no-op for
an instance still in the adding state, otherwise one `delete_entry` at the
current DN. -/
def deleteModel (inst : LDAPInstance) : List DirOp :=
  if inst.adding then [] else [DirOp.deleteEntry (buildDn inst)]

/-- Embedding of `LDAPModel.set_password` (models.py, lines 177-181): stage
the raw password on the instance; nothing is written until the next save. -/
def set_password (inst : LDAPInstance) (rawPassword : String) : LDAPInstance :=
  { inst with rawPassword := some rawPassword }

/-- Embedding of `LDAPModel.check_password` (models.py, lines 166-175),
returning the list of bind attempts made (DN and candidate password) next to
the result: an instance in the adding state yields `False` with no bind
attempt; otherwise exactly one authenticated bind at the instance DN decides
the result via `check_entry_password`. -/
def check_password (inst : LDAPInstance)
    (bind : Option String → String → BindOutcome) (rawPassword : String) :
    List (Option String × String) × Except String Bool :=
  if inst.adding then ([], .ok false)
  else ([(buildDn inst, rawPassword)],
        check_entry_password bind (buildDn inst) rawPassword)

/-- C3: a where node that is an AND or OR connective with exactly one child
compiles to exactly what the child compiles to (single-child collapse, for
any connector string, since the length check precedes the connector
dispatch); with two or more children it compiles to the corresponding
connective primitive over the recursively compiled children, preserving
child order (`compileList` compiles the children left to right). -/
theorem c3_connective_compilation (connector : String) (c : SQLExpr)
    (cs : SQLExprList) (h : 2 ≤ cs.length) :
    compileExpr (.whereNode connector (.cons c .nil) false) = compileExpr c ∧
    compileExpr (.whereNode "AND" cs false) =
      Except.map LDAPFilter.andNode (compileList cs) ∧
    compileExpr (.whereNode "OR" cs false) =
      Except.map LDAPFilter.orNode (compileList cs) := by
  refine ⟨?_, ?_, ?_⟩
  · show Except.map (fun node => if false then LDAPFilter.notNode node else node)
      (compileExpr c) = compileExpr c
    cases compileExpr c <;> rfl
  · rcases cs with _ | ⟨a, _ | ⟨b, t⟩⟩
    · simp [SQLExprList.length] at h
    · simp [SQLExprList.length] at h
    · show Except.map (fun node => if false then LDAPFilter.notNode node else node)
        (Except.map LDAPFilter.andNode (compileList (.cons a (.cons b t)))) = _
      cases compileList (.cons a (.cons b t)) <;> rfl
  · rcases cs with _ | ⟨a, _ | ⟨b, t⟩⟩
    · simp [SQLExprList.length] at h
    · simp [SQLExprList.length] at h
    · show Except.map (fun node => if false then LDAPFilter.notNode node else node)
        (Except.map LDAPFilter.orNode (compileList (.cons a (.cons b t)))) = _
      cases compileList (.cons a (.cons b t)) <;> rfl

/-- C3 witness: the single-child collapse and the two-child connective cases
at concrete inputs. -/
theorem c3_connective_compilation_witness :
    2 ≤ SQLExprList.length
      (.cons (.lookup (.col "a") "exact" "1")
        (.cons (.lookup (.col "b") "exact" "2") .nil)) ∧
    (compileExpr (.whereNode "OR"
        (.cons (.lookup (.col "u") "exact" "v") .nil) false) =
      compileExpr (.lookup (.col "u") "exact" "v") ∧
     compileExpr (.whereNode "AND"
        (.cons (.lookup (.col "a") "exact" "1")
          (.cons (.lookup (.col "b") "exact" "2") .nil)) false) =
      Except.map LDAPFilter.andNode (compileList
        (.cons (.lookup (.col "a") "exact" "1")
          (.cons (.lookup (.col "b") "exact" "2") .nil))) ∧
     compileExpr (.whereNode "OR"
        (.cons (.lookup (.col "a") "exact" "1")
          (.cons (.lookup (.col "b") "exact" "2") .nil)) false) =
      Except.map LDAPFilter.orNode (compileList
        (.cons (.lookup (.col "a") "exact" "1")
          (.cons (.lookup (.col "b") "exact" "2") .nil)))) :=
  ⟨by decide,
   c3_connective_compilation "OR" (.lookup (.col "u") "exact" "v")
     (.cons (.lookup (.col "a") "exact" "1")
       (.cons (.lookup (.col "b") "exact" "2") .nil)) (by decide)⟩

/-- Compiling a Django negation wrapper adds exactly one `NotNode` around the
compilation of the wrapped expression. -/
theorem compileExpr_notWrap (e : SQLExpr) :
    compileExpr (notWrap e) = Except.map LDAPFilter.notNode (compileExpr e) := by
  show Except.map (fun node => if true then LDAPFilter.notNode node else node)
    (compileExpr e) = _
  cases compileExpr e <;> rfl

/-- C8: compiling `NOT(NOT(x))` yields two nested negation wrappers around
the compilation of `x`; double negation is not removed, and nothing beyond
the single-child collapse is simplified. -/
theorem c8_double_negation (x : SQLExpr) (f : LDAPFilter)
    (h : compileExpr x = .ok f) :
    compileExpr (notWrap (notWrap x)) = .ok (.notNode (.notNode f)) := by
  rw [compileExpr_notWrap, compileExpr_notWrap, h]
  rfl

/-- C8 witness: double negation of a concrete atomic lookup. -/
theorem c8_double_negation_witness :
    compileExpr (.lookup (.col "uid") "exact" "x") =
      .ok (.expr "uid" "exact" "x") ∧
    compileExpr (notWrap (notWrap (.lookup (.col "uid") "exact" "x"))) =
      .ok (.notNode (.notNode (.expr "uid" "exact" "x"))) :=
  ⟨rfl, c8_double_negation (.lookup (.col "uid") "exact" "x")
    (.expr "uid" "exact" "x") rfl⟩

/-- C5: `check_password` on a never-persisted instance (adding state) returns
`False` with no bind attempt; on a persisted instance it makes exactly one
authenticated bind at the instance DN with the candidate password, returning
`True` on success and `False` on an authentication error, while any other
connection failure propagates unchanged. -/
theorem c5_check_password (inst : LDAPInstance)
    (bind : Option String → String → BindOutcome) (raw : String) :
    (inst.adding = true → check_password inst bind raw = ([], .ok false)) ∧
    (inst.adding = false →
      (check_password inst bind raw).fst = [(buildDn inst, raw)] ∧
      (bind (buildDn inst) raw = .success →
        (check_password inst bind raw).snd = .ok true) ∧
      (bind (buildDn inst) raw = .authError →
        (check_password inst bind raw).snd = .ok false) ∧
      (∀ m, bind (buildDn inst) raw = .otherError m →
        (check_password inst bind raw).snd = .error m)) := by
  constructor
  · intro h
    simp [check_password, h]
  · intro h
    refine ⟨by simp [check_password, h], ?_, ?_, ?_⟩
    · intro hb
      simp [check_password, check_entry_password, h, hb]
    · intro hb
      simp [check_password, check_entry_password, h, hb]
    · intro m hb
      simp [check_password, check_entry_password, h, hb]

/-- C5 witness: a never-saved instance yields `False` without any bind
attempt, even against a bind oracle that would reject the credentials. -/
theorem c5_check_password_witness :
    ({ cls := ⟨"ou=people,dc=example,dc=com", ["top"], none,
               [⟨"name", some "cn", true⟩]⟩,
       cnValue := "alice", loadedCn := "alice",
       fieldValues := [("cn", ["alice"])], adding := true,
       rawPassword := none } : LDAPInstance).adding = true ∧
    check_password
      { cls := ⟨"ou=people,dc=example,dc=com", ["top"], none,
                [⟨"name", some "cn", true⟩]⟩,
        cnValue := "alice", loadedCn := "alice",
        fieldValues := [("cn", ["alice"])], adding := true,
        rawPassword := none }
      (fun _ _ => .authError) "pw" = ([], .ok false) :=
  ⟨rfl,
   (c5_check_password
     { cls := ⟨"ou=people,dc=example,dc=com", ["top"], none,
               [⟨"name", some "cn", true⟩]⟩,
       cnValue := "alice", loadedCn := "alice",
       fieldValues := [("cn", ["alice"])], adding := true,
       rawPassword := none }
     (fun _ _ => .authError) "pw").1 rfl⟩

/-- C6: the bulk insert, bulk update and bulk delete compilers fail for every
query and every result type with the bulk-not-supported error, with an empty
event trace (no connection opened, nothing read or written). -/
theorem c6_bulk_operations_fail_fast (q : DjangoQuery) (rt : ResultType) :
    sqlInsertCompilerExecuteSql q rt =
      ([], .error "Bulk insert is not supported for LDAP") ∧
    sqlUpdateCompilerExecuteSql q rt =
      ([], .error "Bulk update is not supported for LDAP") ∧
    sqlDeleteCompilerExecuteSql q rt =
      ([], .error "Bulk delete is not supported for LDAP") :=
  ⟨rfl, rfl, rfl⟩

/-- C4: in `SINGLE` mode without aggregates, a query matching no entry
returns `None` (`Except.ok none`); a query matching an entry returns the
projected field values in requested-field order, where an attribute absent
on the entry defaults to the empty sequence; `None` is a distinct outcome
from any row, including a row whose projected fields are all empty; and
`entry.get` with the empty-list default never yields a null value for an
absent attribute. -/
theorem c4_single_mode_without_aggregates (annotNames aggrNames : List String)
    (q : DjangoQuery) (pr : ProjResult) (plan : QueryPlan)
    (runQuery : QueryPlan → List Entry) (aggEval : Option String → Option Nat)
    (hp : processSelect annotNames aggrNames q.select = .ok pr)
    (ha : pr.aggrs = [])
    (hb : buildPlan q pr = .ok plan) :
    (runQuery plan = [] →
      executeSql annotNames aggrNames q .single runQuery aggEval =
        ([.connOpened, .connClosed], .ok none)) ∧
    (∀ e rest, runQuery plan = e :: rest →
      executeSql annotNames aggrNames q .single runQuery aggEval =
        ([.connOpened, .connClosed],
         .ok (some (.singleRow (pr.fields.map fun f => entryGet e f []))))) ∧
    (∀ vals, some (ExecResult.singleRow vals) ≠ (none : Option ExecResult)) ∧
    (∀ (e : Entry) (f : String),
      e.find? (fun kv => kv.fst == f) = none → entryGet e f [] = []) := by
  refine ⟨?_, ?_, ?_, ?_⟩
  · intro he
    simp [executeSql, hp, hb, materialize, ha, he]
  · intro e rest he
    simp [executeSql, hp, hb, materialize, ha, he]
  · intro vals
    simp
  · intro e f hf
    simp [entryGet, hf]

/-- C4 witness: a concrete single-field query against an empty directory
yields `None`. -/
theorem c4_single_mode_without_aggregates_witness :
    processSelect [] [] [(SelectExpr.col "uid", none)] =
      .ok ⟨[], [], ["uid"]⟩ ∧
    (⟨[], [], ["uid"]⟩ : ProjResult).aggrs = [] ∧
    buildPlan
      { select := [(SelectExpr.col "uid", none)], whereTree := none,
        baseDn := "ou=people,dc=example,dc=com", objectClasses := ["top"],
        searchClasses := none, distinct := false, orderBy := [],
        lowMark := 0, highMark := none } ⟨[], [], ["uid"]⟩ =
      .ok ⟨"ou=people,dc=example,dc=com", [],
           [.expr "objectClass" "exact" "top"], ["uid"], false, [], none⟩ ∧
    executeSql [] []
      { select := [(SelectExpr.col "uid", none)], whereTree := none,
        baseDn := "ou=people,dc=example,dc=com", objectClasses := ["top"],
        searchClasses := none, distinct := false, orderBy := [],
        lowMark := 0, highMark := none } .single (fun _ => []) (fun _ => none) =
      ([.connOpened, .connClosed], .ok none) :=
  ⟨rfl, rfl, rfl,
   (c4_single_mode_without_aggregates [] []
     { select := [(SelectExpr.col "uid", none)], whereTree := none,
       baseDn := "ou=people,dc=example,dc=com", objectClasses := ["top"],
       searchClasses := none, distinct := false, orderBy := [],
       lowMark := 0, highMark := none }
     ⟨[], [], ["uid"]⟩
     ⟨"ou=people,dc=example,dc=com", [],
      [.expr "objectClass" "exact" "top"], ["uid"], false, [], none⟩
     (fun _ => []) (fun _ => none) rfl rfl rfl).1 rfl⟩

/-- C9: when the projection resolved at least one aggregate, executing in
`MULTI` mode silently ignores the aggregates — the result is the ordinary
chunked row set projected over the gathered non-aggregate field list, with
no error and no aggregate values (the `MULTI` branch does not depend on the
aggregate mapping at all) — whereas executing the same query in `SINGLE`
mode produces the aggregate scalar row. -/
theorem c9_multi_mode_ignores_aggregates (annotNames aggrNames : List String)
    (q : DjangoQuery) (pr : ProjResult) (plan : QueryPlan)
    (runQuery : QueryPlan → List Entry) (aggEval : Option String → Option Nat)
    (hp : processSelect annotNames aggrNames q.select = .ok pr)
    (ha : pr.aggrs ≠ [])
    (hb : buildPlan q pr = .ok plan) :
    executeSql annotNames aggrNames q .multi runQuery aggEval =
      ([.connOpened, .connClosed],
       .ok (some (.multiRows
         [(runQuery plan).map fun r => pr.fields.map fun f => entryGet r f []]))) ∧
    materialize .multi pr (runQuery plan) aggEval =
      materialize .multi { pr with aggrs := [] } (runQuery plan) aggEval ∧
    executeSql annotNames aggrNames q .single runQuery aggEval =
      ([.connOpened, .connClosed],
       .ok (some (.aggrRow (pr.aggrs.map fun a => aggEval a.fst)))) := by
  have hne : pr.aggrs.isEmpty = false := by
    cases hpa : pr.aggrs with
    | nil => exact absurd hpa ha
    | cons a as => rfl
  refine ⟨?_, ?_, ?_⟩
  · simp [executeSql, hp, hb, materialize]
  · simp [materialize]
  · simp [executeSql, hp, hb, materialize, hne]

/-- C9 witness: a concrete whole-query count in `MULTI` mode returns the
(empty) ordinary row chunk with no error, while `SINGLE` mode returns the
aggregate scalar row. -/
theorem c9_multi_mode_ignores_aggregates_witness :
    processSelect [] [] [(SelectExpr.aggregate "Count" [.star] true, some "n")] =
      .ok ⟨[], [(some "n", ⟨"Count", none⟩)], []⟩ ∧
    (⟨[], [(some "n", ⟨"Count", none⟩)], []⟩ : ProjResult).aggrs ≠ [] ∧
    executeSql [] []
      { select := [(SelectExpr.aggregate "Count" [.star] true, some "n")],
        whereTree := none, baseDn := "ou=people,dc=example,dc=com",
        objectClasses := ["top"], searchClasses := none, distinct := false,
        orderBy := [], lowMark := 0, highMark := none }
      .multi (fun _ => []) (fun _ => some 3) =
      ([.connOpened, .connClosed], .ok (some (.multiRows [[]]))) :=
  ⟨rfl, by decide,
   (c9_multi_mode_ignores_aggregates [] []
     { select := [(SelectExpr.aggregate "Count" [.star] true, some "n")],
       whereTree := none, baseDn := "ou=people,dc=example,dc=com",
       objectClasses := ["top"], searchClasses := none, distinct := false,
       orderBy := [], lowMark := 0, highMark := none }
     ⟨[], [(some "n", ⟨"Count", none⟩)], []⟩
     ⟨"ou=people,dc=example,dc=com", [],
      [.expr "objectClass" "exact" "top"], [], false, [], none⟩
     (fun _ => []) (fun _ => some 3) rfl (by decide) rfl).1⟩

/-- C2 counterexample: a query whose projection is fine but whose filter tree
holds an expression the layer cannot translate (a lookup whose left-hand side
is not a column) is rejected only after the scoped directory connection has
been opened — the event trace of the execution is
`[connOpened, connClosed]`, not the empty trace the claim requires, because
`_compile` runs inside the `with create_query(...)` block. -/
theorem c2_connection_opened_before_filter_rejection :
    executeSql [] []
      { select := [(SelectExpr.col "uid", none)],
        whereTree := some (.lookup (.notCol "ann") "exact" "x"),
        baseDn := "ou=people,dc=example,dc=com", objectClasses := ["top"],
        searchClasses := none, distinct := false, orderBy := [],
        lowMark := 0, highMark := none } .multi (fun _ => []) (fun _ => none) =
      ([.connOpened, .connClosed],
       .error "Filtering on annotations is not supported") := by rfl

/-- C2 (amended): projection errors are raised eagerly, before any directory
connection is opened (empty event trace); filter-tree and ordering
translation errors are raised only after the scoped connection has been
opened, and the scope closes the connection on that error path (trace
`[connOpened, connClosed]`), so no dangling connection survives, but the
directory connection round trip has begun. -/
theorem c2_amended_eager_rejection (annotNames aggrNames : List String)
    (q : DjangoQuery) (rt : ResultType) (runQuery : QueryPlan → List Entry)
    (aggEval : Option String → Option Nat)
    (hrt : rt = .single ∨ rt = .multi) :
    (∀ e, processSelect annotNames aggrNames q.select = .error e →
      executeSql annotNames aggrNames q rt runQuery aggEval = ([], .error e)) ∧
    (∀ pr e, processSelect annotNames aggrNames q.select = .ok pr →
      buildPlan q pr = .error e →
      executeSql annotNames aggrNames q rt runQuery aggEval =
        ([.connOpened, .connClosed], .error e)) := by
  constructor
  · intro e hp
    rcases hrt with h | h <;> subst h <;> simp [executeSql, hp]
  · intro pr e hp hb
    rcases hrt with h | h <;> subst h <;> simp [executeSql, hp, hb]

/-- C2 (amended) witness: a projection the layer cannot translate is rejected
with an empty event trace. -/
theorem c2_amended_eager_rejection_witness :
    ((ResultType.multi = ResultType.single ∨
      ResultType.multi = ResultType.multi) ∧
     processSelect [] [] [(SelectExpr.otherExpr "raw", none)] =
       .error "Unsupported usage: raw") ∧
    executeSql [] []
      { select := [(SelectExpr.otherExpr "raw", none)], whereTree := none,
        baseDn := "ou=people,dc=example,dc=com", objectClasses := ["top"],
        searchClasses := none, distinct := false, orderBy := [],
        lowMark := 0, highMark := none } .multi (fun _ => []) (fun _ => none) =
      ([], .error "Unsupported usage: raw") :=
  ⟨⟨Or.inr rfl, rfl⟩,
   (c2_amended_eager_rejection [] []
     { select := [(SelectExpr.otherExpr "raw", none)], whereTree := none,
       baseDn := "ou=people,dc=example,dc=com", objectClasses := ["top"],
       searchClasses := none, distinct := false, orderBy := [],
       lowMark := 0, highMark := none } .multi (fun _ => []) (fun _ => none)
     (Or.inr rfl)).1 "Unsupported usage: raw" rfl⟩

/-- C1 counterexample: an instance loaded with naming value `alice` whose
naming value was changed to `bob` before saving (so the newly computed DN
differs from the DN stored at load) is saved with a single `update_entry`
at the newly computed DN — `save` issues no rename at all (the source never
compares with a previous DN; the backend wrapper does not even define a
rename operation). -/
theorem c1_save_issues_no_rename :
    (save { cls := ⟨"ou=people,dc=example,dc=com", ["top"], none,
                    [⟨"name", some "cn", true⟩]⟩,
            cnValue := "bob", loadedCn := "alice",
            fieldValues := [("cn", ["bob"])], adding := false,
            rawPassword := none }).fst =
      [DirOp.updateEntry (some "cn=bob,ou=people,dc=example,dc=com")
        [("cn", ["bob"]), ("objectClass", ["top"])]] ∧
    ((save { cls := ⟨"ou=people,dc=example,dc=com", ["top"], none,
                     [⟨"name", some "cn", true⟩]⟩,
             cnValue := "bob", loadedCn := "alice",
             fieldValues := [("cn", ["bob"])], adding := false,
             rawPassword := none }).fst.any DirOp.isRename) = false := by
  exact ⟨by decide, by decide⟩

/-- C1 (amended): saving a previously persisted entity never issues a
rename, regardless of whether the naming-attribute value changed: the first
operation is always `update_entry` at the DN freshly computed from the
current naming-attribute value, no operation in the save is a rename, and
after the save the entity naming value — hence the DN computed for it —
still reflects the new value. -/
theorem c1_amended_update_at_new_dn (inst : LDAPInstance)
    (h : inst.adding = false) :
    (save inst).fst.head? =
      some (DirOp.updateEntry (buildDn inst) (saveAttrs inst)) ∧
    ((save inst).fst.any DirOp.isRename) = false ∧
    (save inst).snd.cnValue = inst.cnValue ∧
    buildDn (save inst).snd = buildDn inst := by
  refine ⟨by simp [save, h], ?_, by simp [save], by simp [save, buildDn]⟩
  rcases hrp : inst.rawPassword with _ | p
  · simp [save, h, hrp, DirOp.isRename]
  · by_cases hp : p = "" <;> simp [save, h, hrp, hp, DirOp.isRename]

/-- C1 (amended) witness: the renamed-free update save at a concrete changed
instance. -/
theorem c1_amended_update_at_new_dn_witness :
    ({ cls := ⟨"ou=people,dc=example,dc=com", ["top"], none,
               [⟨"name", some "cn", true⟩]⟩,
       cnValue := "bob", loadedCn := "alice",
       fieldValues := [("cn", ["bob"])], adding := false,
       rawPassword := none } : LDAPInstance).adding = false ∧
    ((save { cls := ⟨"ou=people,dc=example,dc=com", ["top"], none,
                     [⟨"name", some "cn", true⟩]⟩,
             cnValue := "bob", loadedCn := "alice",
             fieldValues := [("cn", ["bob"])], adding := false,
             rawPassword := none }).fst.head? =
      some (DirOp.updateEntry
        (buildDn { cls := ⟨"ou=people,dc=example,dc=com", ["top"], none,
                           [⟨"name", some "cn", true⟩]⟩,
                   cnValue := "bob", loadedCn := "alice",
                   fieldValues := [("cn", ["bob"])], adding := false,
                   rawPassword := none })
        (saveAttrs { cls := ⟨"ou=people,dc=example,dc=com", ["top"], none,
                             [⟨"name", some "cn", true⟩]⟩,
                     cnValue := "bob", loadedCn := "alice",
                     fieldValues := [("cn", ["bob"])], adding := false,
                     rawPassword := none }))) :=
  ⟨rfl,
   (c1_amended_update_at_new_dn
     { cls := ⟨"ou=people,dc=example,dc=com", ["top"], none,
               [⟨"name", some "cn", true⟩]⟩,
       cnValue := "bob", loadedCn := "alice",
       fieldValues := [("cn", ["bob"])], adding := false,
       rawPassword := none } rfl).1⟩

/-- C7 counterexample: a model class lacking a base DN is defined without any
error — class definition has no validation and no error channel — and the
configuration error is raised only when an instance is constructed
(`LDAPModel.__init__`), that is, at use time. -/
theorem c7_no_definition_time_check :
    defineModelClass ⟨"", ["top"], none, [⟨"name", some "cn", true⟩]⟩ =
      ⟨"", ["top"], none, [⟨"name", some "cn", true⟩]⟩ ∧
    ldapModelInit ⟨"", ["top"], none, [⟨"name", some "cn", true⟩]⟩ =
      .error "LDAP models must have a base_dn" :=
  ⟨rfl, rfl⟩

/-- C7 (amended): class definition performs no configuration check; the
checks run at every instance construction: a missing base DN raises the
base-DN configuration error, a present base DN without a primary-key field
mapping to `cn` raises the naming-field configuration error, and a valid
configuration resolves the naming field. -/
theorem c7_amended_checks_at_instance_construction (c : ModelClass) :
    defineModelClass c = c ∧
    (c.baseDn = "" → ldapModelInit c = .error "LDAP models must have a base_dn") ∧
    (c.baseDn ≠ "" → findCnField c.fields = none →
      ldapModelInit c =
        .error "LDAP models must have a primary key field mapping to the CN") ∧
    (∀ n, c.baseDn ≠ "" → findCnField c.fields = some n →
      ldapModelInit c = .ok n) := by
  refine ⟨rfl, ?_, ?_, ?_⟩
  · intro h
    simp [ldapModelInit, h]
  · intro h hf
    simp [ldapModelInit, h, hf]
  · intro n h hf
    simp [ldapModelInit, h, hf]

/-- C7 (amended) witness: the base-DN check fires at instance construction
for a concrete class without a base DN. -/
theorem c7_amended_checks_witness :
    (⟨"", ["top"], none, [⟨"name", some "cn", true⟩]⟩ : ModelClass).baseDn = "" ∧
    ldapModelInit ⟨"", ["top"], none, [⟨"name", some "cn", true⟩]⟩ =
      .error "LDAP models must have a base_dn" :=
  ⟨rfl,
   (c7_amended_checks_at_instance_construction
     ⟨"", ["top"], none, [⟨"name", some "cn", true⟩]⟩).2.1 rfl⟩

/-- C10 counterexample: staging the empty string as raw password and saving
issues no password-set call at all — the source guards the password write
with Python truthiness (`if raw_password:`), so an empty staged password is
ignored, contradicting the claim for that input. -/
theorem c10_empty_staged_password_ignored :
    (save (set_password
      { cls := ⟨"ou=people,dc=example,dc=com", ["top"], none,
                [⟨"name", some "cn", true⟩]⟩,
        cnValue := "alice", loadedCn := "alice",
        fieldValues := [("cn", ["alice"])], adding := false,
        rawPassword := none } "")).fst =
      [DirOp.updateEntry (some "cn=alice,ou=people,dc=example,dc=com")
        [("cn", ["alice"]), ("objectClass", ["top"])]] ∧
    ((save (set_password
      { cls := ⟨"ou=people,dc=example,dc=com", ["top"], none,
                [⟨"name", some "cn", true⟩]⟩,
        cnValue := "alice", loadedCn := "alice",
        fieldValues := [("cn", ["alice"])], adding := false,
        rawPassword := none } "")).fst.any DirOp.isSetPassword) = false :=
  ⟨by decide, by decide⟩

/-- C10 (amended): after staging a nonempty raw password, the next save
issues its main create or update followed by a password-set call with the
staged password; the save does not clear the staged password, so a further
save issues the password-set call again with the same password. -/
theorem c10_amended_staged_password_resent (inst : LDAPInstance) (p : String)
    (h : p ≠ "") :
    (save (set_password inst p)).fst =
      [(if inst.adding then DirOp.createEntry (buildDn inst) (saveAttrs inst)
        else DirOp.updateEntry (buildDn inst) (saveAttrs inst)),
       DirOp.setEntryPassword (buildDn inst) p] ∧
    (save (set_password inst p)).snd.rawPassword = some p ∧
    (save (save (set_password inst p)).snd).fst =
      [DirOp.updateEntry (buildDn inst) (saveAttrs inst),
       DirOp.setEntryPassword (buildDn inst) p] := by
  refine ⟨?_, ?_, ?_⟩ <;> simp [save, set_password, h, buildDn, saveAttrs]

/-- C10 (amended) witness: a concrete instance with staged password `secret`
resends it on a second save. -/
theorem c10_amended_staged_password_resent_witness :
    ("secret" ≠ "") ∧
    (save (save (set_password
      { cls := ⟨"ou=people,dc=example,dc=com", ["top"], none,
                [⟨"name", some "cn", true⟩]⟩,
        cnValue := "alice", loadedCn := "alice",
        fieldValues := [("cn", ["alice"])], adding := false,
        rawPassword := none } "secret")).snd).fst =
      [DirOp.updateEntry
        (buildDn { cls := ⟨"ou=people,dc=example,dc=com", ["top"], none,
                           [⟨"name", some "cn", true⟩]⟩,
                   cnValue := "alice", loadedCn := "alice",
                   fieldValues := [("cn", ["alice"])], adding := false,
                   rawPassword := none })
        (saveAttrs { cls := ⟨"ou=people,dc=example,dc=com", ["top"], none,
                             [⟨"name", some "cn", true⟩]⟩,
                     cnValue := "alice", loadedCn := "alice",
                     fieldValues := [("cn", ["alice"])], adding := false,
                     rawPassword := none }),
       DirOp.setEntryPassword
        (buildDn { cls := ⟨"ou=people,dc=example,dc=com", ["top"], none,
                           [⟨"name", some "cn", true⟩]⟩,
                   cnValue := "alice", loadedCn := "alice",
                   fieldValues := [("cn", ["alice"])], adding := false,
                   rawPassword := none }) "secret"] :=
  ⟨by decide,
   (c10_amended_staged_password_resent
     { cls := ⟨"ou=people,dc=example,dc=com", ["top"], none,
               [⟨"name", some "cn", true⟩]⟩,
       cnValue := "alice", loadedCn := "alice",
       fieldValues := [("cn", ["alice"])], adding := false,
       rawPassword := none } "secret" (by decide)).2.2⟩
